import Mathlib

/-!
# Verification of the Judge0 submission–poll–decode–classify–aggregate pipeline

Shallow embedding of `server/services/judge0Service.js`.

Modelling conventions:
* The remote HTTP engine, the base64 decoder (Node's `Buffer`) and the LLM
  interpretation service are external collaborators; they appear as function
  parameters (`net`, `dec`, `fetchRaw`, `interpretOutcome`).
* JavaScript exceptions are modelled as `Except String` values carrying the
  exception's `message`; a `try`/`catch` becomes a `match` on that value.
* JavaScript string truthiness (`null`/`undefined`/`""` are falsy) is modelled
  on `Option String` by `strTruthy`; `x || d` becomes `jsOrDefault x d`.
* Wall-clock time in `waitForSubmission` advances by exactly the 1000 ms sleep
  between polls (fetches themselves are instantaneous in the model), so the
  k-th fetch happens at elapsed time 1000·k and is attempted iff
  1000·k < maxWaitTime.
-/

namespace Judge0

/-- JavaScript string truthiness on an optional string field:
`null`/`undefined`/`""` are falsy. -/
def strTruthy : Option String → Bool
  | none => false
  | some s => s ≠ ""

/-- JavaScript `x || d` for an optional string `x` and default `d`. -/
def jsOrDefault : Option String → String → String
  | none, d => d
  | some s, d => if s = "" then d else s

/-- ASCII lowercasing of one character, as JavaScript's `toLowerCase` acts on
the language identifiers in play (all ASCII). -/
def charToLower (c : Char) : Char :=
  if 65 ≤ c.toNat ∧ c.toNat ≤ 90 then Char.ofNat (c.toNat + 32) else c

/-- `language.toLowerCase()`. -/
def strToLower (s : String) : String := ⟨s.data.map charToLower⟩

/-- The fixed language table (`this.languageMap`), keyed by lowercase name. -/
def languageMap : String → Option Nat
  | "c" => some 50
  | "cpp" => some 54
  | "java" => some 62
  | "python" => some 71
  | "javascript" => some 63
  | _ => none

/-- `getLanguageId(language)`: consult the table after lowercasing. -/
def getLanguageId (language : String) : Option Nat :=
  languageMap (strToLower language)

/-- The status object of a Judge0 response: `{id, description}`. -/
structure Status where
  id : Nat
  description : Option String
  deriving Repr, DecidableEq

/-- A (decoded) Judge0 submission-result record:
`{status, stdout, stderr, compile_output, time, memory}`. -/
structure RawResult where
  status : Option Status
  stdout : Option String
  stderr : Option String
  compile_output : Option String
  time : Option String
  memory : Option Nat
  deriving Repr, DecidableEq

/-- `result.status?.id === n` (optional chaining: absent status never matches). -/
def statusIs (r : RawResult) (n : Nat) : Bool :=
  match r.status with
  | some s => s.id = n
  | none => false

/-- `result.status && result.status.id > 2`: the poll-loop terminal test. -/
def isTerminal (r : RawResult) : Bool :=
  match r.status with
  | some s => s.id > 2
  | none => false

/-- `result.status?.description`. -/
def statusDescription (r : RawResult) : Option String :=
  r.status.bind (·.description)

/-! ## ResponseDecoder (`decodeBase64Response`) -/

/-- One field of `decodeBase64Response`: a truthy string field is passed to the
base64 decoder `dec`; on decode failure (`dec` returns `none`, the `catch e`
branch) the field is left exactly as received; falsy fields are untouched. -/
def decodeField (dec : String → Option String) : Option String → Option String
  | none => none
  | some s =>
    if s = "" then some s
    else
      match dec s with
      | some d => some d
      | none => some s

/-- `decodeBase64Response(data)`: decode `stdout`, `stderr`, `compile_output`
independently, leaving every other field of the record unchanged. -/
def decodeBase64Response (dec : String → Option String) (r : RawResult) : RawResult :=
  { r with
    stdout := decodeField dec r.stdout
    stderr := decodeField dec r.stderr
    compile_output := decodeField dec r.compile_output }

/-! ## OutputComparator (`compareOutput`) -/

/-- `actual.trim()`: strip leading and trailing whitespace (character list form). -/
def trimChars (l : List Char) : List Char :=
  ((l.dropWhile Char.isWhitespace).reverse.dropWhile Char.isWhitespace).reverse

/-- `.replace(/\r\n/g, '\n')`: left-to-right global replacement of CRLF by LF. -/
def crlfToLf : List Char → List Char
  | [] => []
  | '\r' :: '\n' :: rest => '\n' :: crlfToLf rest
  | c :: rest => c :: crlfToLf rest

/-- The normalization `compareOutput` applies to each side:
trim, then normalize line endings. -/
def normalizeOutput (s : String) : String :=
  ⟨crlfToLf (trimChars s.data)⟩

/-- `compareOutput(actual, expected)`: false when either side is absent or
empty, otherwise strict equality of the normalized strings. -/
def compareOutput (actual expected : Option String) : Bool :=
  match actual, expected with
  | some a, some e =>
    if a = "" ∨ e = "" then false
    else normalizeOutput a = normalizeOutput e
  | _, _ => false

/-! ## SubmissionClient (`submitCode`) -/

/-- The body posted to `/submissions`. -/
structure Submission where
  source_code : String
  language_id : Nat
  stdin : String
  base64_encoded : Bool
  deriving Repr, DecidableEq

/-- A transport-level failure of a network call: the optional HTTP status of
`error.response` and the exception's `message`. -/
structure NetError where
  httpStatus : Option Nat
  message : String
  deriving Repr, DecidableEq

/-- The error-message translation in `submitCode`'s `catch` block. -/
def submitErrorMessage (e : NetError) : String :=
  match e.httpStatus with
  | some 401 => "Judge0 API key is invalid or missing. Please check your JUDGE0_API_KEY environment variable."
  | some 429 => "Judge0 API rate limit exceeded. Please try again later."
  | some 500 => "Judge0 service is temporarily unavailable. Please try again later."
  | _ => "Failed to submit code: " ++ e.message

/-- `submitCode(code, language, input)` together with the trace of network
requests it performs. `net` is the remote engine's `POST /submissions`
endpoint, returning a token or a transport error. The unsupported-language
throw happens inside the `try`, so its message is wrapped by the same generic
`catch` branch (`error.response` is absent for it). -/
def submitCodeT (net : Submission → Except NetError String)
    (code language input : String) : Except String String × List Submission :=
  match languageMap (strToLower language) with
  | none =>
    (.error (submitErrorMessage ⟨none, "Unsupported language: " ++ language⟩), [])
  | some id =>
    let sub : Submission :=
      { source_code := code, language_id := id, stdin := input, base64_encoded := true }
    match net sub with
    | .ok tok => (.ok tok, [sub])
    | .error e => (.error (submitErrorMessage e), [sub])

/-- `submitCode`'s returned value (token or thrown message). -/
def submitCode (net : Submission → Except NetError String)
    (code language input : String) : Except String String :=
  (submitCodeT net code language input).fst

/-! ## getSubmissionResult and ResultPoller (`waitForSubmission`) -/

/-- `getSubmissionResult(token)` at poll attempt `k`: one `GET` of the
submission (`fetchRaw token k`, the k-th response the remote engine gives for
this token), decoded by `decodeBase64Response`; a transport failure is
re-thrown with the `Failed to get submission result:` prefix. -/
def getSubmissionResult (dec : String → Option String)
    (fetchRaw : String → Nat → Except NetError RawResult)
    (token : String) (k : Nat) : Except String RawResult :=
  match fetchRaw token k with
  | .error e => .error ("Failed to get submission result: " ++ e.message)
  | .ok d => .ok (decodeBase64Response dec d)

/-- Number of poll attempts the `while (Date.now() - startTime < maxWaitTime)`
loop admits: the k-th fetch happens at elapsed time 1000·k (the 1-second sleep
between polls), so attempts are exactly those k with 1000·k < maxWaitTime. -/
def pollBudget (maxWaitTime : Nat) : Nat := (maxWaitTime + 999) / 1000

/-- The poll loop: at most `fuel` more attempts, the next being attempt `k`.
A fetch exception is re-thrown (the loop's `catch` rethrows); a terminal
status (`id > 2`) returns the fetched result; otherwise sleep and retry;
exhausted budget throws `Submission timeout`. -/
def waitLoop (fetchResult : Nat → Except String RawResult) :
    Nat → Nat → Except String RawResult
  | 0, _ => .error "Submission timeout"
  | fuel + 1, k =>
    match fetchResult k with
    | .error e => .error e
    | .ok r => if isTerminal r then .ok r else waitLoop fetchResult fuel (k + 1)

/-- `waitForSubmission(token, maxWaitTime)` over an abstract per-attempt fetch. -/
def waitForSubmission (fetchResult : Nat → Except String RawResult)
    (maxWaitTime : Nat := 30000) : Except String RawResult :=
  waitLoop fetchResult (pollBudget maxWaitTime) 0

/-! ## executeCode (single-execution path) -/

/-- The output shaping `executeCode` applies to the terminal result
(`Handle different output scenarios`). -/
def shapeResult (r : RawResult) : RawResult :=
  if statusIs r 3 then
    { r with
      stdout := some (jsOrDefault r.stdout "No output")
      stderr := some (jsOrDefault r.stderr "")
      compile_output := some (jsOrDefault r.compile_output "") }
  else if statusIs r 6 then
    { r with
      stdout := some ""
      stderr := some ""
      compile_output := some (jsOrDefault r.compile_output "Compilation Error") }
  else if statusIs r 5 then
    { r with
      stdout := some ""
      stderr := some "Time Limit Exceeded"
      compile_output := some "" }
  else
    { r with
      stdout := some (jsOrDefault r.stdout "")
      stderr := some (jsOrDefault r.stderr "Runtime Error")
      compile_output := some (jsOrDefault r.compile_output "") }

/-- `executeCode(code, language, input)`: submit, wait with a 15000 ms budget,
shape. Errors from submission or polling propagate unmodified (the outer
`catch` rethrows). -/
def executeCode (net : Submission → Except NetError String)
    (dec : String → Option String)
    (fetchRaw : String → Nat → Except NetError RawResult)
    (code language input : String) : Except String RawResult :=
  match submitCode net code language input with
  | .error e => .error e
  | .ok token =>
    match waitForSubmission (getSubmissionResult dec fetchRaw token) 15000 with
    | .error e => .error e
    | .ok r => .ok (shapeResult r)

/-! ## TestCaseOrchestrator, plain variant (`executeTestCases`) -/

/-- A test case: `{id, input_data, expected_output, is_sample}`. -/
structure TestCase where
  id : Nat
  input_data : String
  expected_output : String
  is_sample : Bool
  deriving Repr, DecidableEq

/-- The verdict categories of a per-case result. -/
inductive Verdict
  | PASSED
  | FAILED
  | TLE
  | CE
  | ERROR
  deriving Repr, DecidableEq

/-- One per-case record pushed onto `results` by `executeTestCases`. -/
structure CaseResult where
  testCase : TestCase
  status : Verdict
  output : Option String
  expected : String
  executionTime : Option String
  memory : Option Nat
  error : Option String
  deriving Repr, DecidableEq

/-- The `if`/`else if` chain of `executeTestCases` classifying a terminal
result into a `CaseResult`. -/
def classifyCase (tc : TestCase) (r : RawResult) : CaseResult :=
  if statusIs r 3 then
    { testCase := tc
      status := if compareOutput r.stdout (some tc.expected_output) then .PASSED else .FAILED
      output := r.stdout
      expected := tc.expected_output
      executionTime := r.time
      memory := r.memory
      error := none }
  else if statusIs r 4 then
    { testCase := tc, status := .FAILED, output := r.stdout
      expected := tc.expected_output, executionTime := r.time, memory := r.memory
      error := none }
  else if statusIs r 5 then
    { testCase := tc, status := .TLE, output := none
      expected := tc.expected_output, executionTime := none, memory := none
      error := some "Time Limit Exceeded" }
  else if statusIs r 6 then
    { testCase := tc, status := .CE, output := none
      expected := tc.expected_output, executionTime := none, memory := none
      error := some (jsOrDefault r.compile_output "Compilation Error") }
  else
    { testCase := tc, status := .ERROR, output := none
      expected := tc.expected_output, executionTime := none, memory := none
      error := some (jsOrDefault (statusDescription r) "Unknown Error") }

/-- The `catch` block of the per-case `try`: an exception with message `e`
becomes an ERROR record. -/
def errorCaseResult (tc : TestCase) (e : String) : CaseResult :=
  { testCase := tc, status := .ERROR, output := none
    expected := tc.expected_output, executionTime := none, memory := none
    error := some e }

/-- The submit-then-poll pipeline run for one stdin payload, with the batch
default poll budget of 30000 ms: `submitCode` then `waitForSubmission`. -/
def casePipeline (net : Submission → Except NetError String)
    (dec : String → Option String)
    (fetchRaw : String → Nat → Except NetError RawResult)
    (code language input : String) : Except String RawResult :=
  match submitCode net code language input with
  | .error e => .error e
  | .ok token => waitForSubmission (getSubmissionResult dec fetchRaw token) 30000

/-- One iteration of `executeTestCases`' loop: the per-case `try`/`catch`. -/
def processTestCase (net : Submission → Except NetError String)
    (dec : String → Option String)
    (fetchRaw : String → Nat → Except NetError RawResult)
    (code language : String) (tc : TestCase) : CaseResult :=
  match casePipeline net dec fetchRaw code language tc.input_data with
  | .error e => errorCaseResult tc e
  | .ok r => classifyCase tc r

/-- `executeTestCases(code, language, testCases)`: the sequential loop over
test cases with per-case exception isolation, as a map. -/
def executeTestCases (net : Submission → Except NetError String)
    (dec : String → Option String)
    (fetchRaw : String → Nat → Except NetError RawResult)
    (code language : String) (testCases : List TestCase) : List CaseResult :=
  testCases.map (processTestCase net dec fetchRaw code language)

/-! ## TestCaseOrchestrator, interpreted variant (`executeTestCasesWithLLM`) -/

/-- One interpretation record from `llmService.interpretTestCases`:
`{success, formatted_input}`. -/
structure Interp where
  success : Bool
  formatted_input : Option String
  deriving Repr, DecidableEq

/-- One per-case record of the LLM variant: a `CaseResult` plus the
interpretation consulted (`none` models an absent element of the
interpretation sequence) and the stdin actually recorded. -/
structure CaseResultLLM where
  testCase : TestCase
  status : Verdict
  output : Option String
  expected : String
  executionTime : Option String
  memory : Option Nat
  error : Option String
  llmInterpretation : Option Interp
  usedInput : String
  deriving Repr, DecidableEq

/-- `interpretation.success && interpretation.formatted_input ? … : …`:
the interpreted input is used only when `success` is true and
`formatted_input` is a truthy (present, non-empty) string. -/
def inputToUse (tc : TestCase) (i : Interp) : String :=
  match i.formatted_input with
  | some s => if i.success ∧ s ≠ "" then s else tc.input_data
  | none => tc.input_data

/-- The classification chain of `executeTestCasesWithLLM`, identical to the
plain one plus the `llmInterpretation`/`usedInput` fields. -/
def classifyCaseLLM (tc : TestCase) (i : Interp) (used : String) (r : RawResult) :
    CaseResultLLM :=
  let base := classifyCase tc r
  { testCase := base.testCase, status := base.status, output := base.output
    expected := base.expected, executionTime := base.executionTime
    memory := base.memory, error := base.error
    llmInterpretation := some i, usedInput := used }

/-- The `catch` block of the LLM variant's per-case `try`: `usedInput` falls
back to the original `input_data`. -/
def errorCaseResultLLM (tc : TestCase) (i : Option Interp) (e : String) :
    CaseResultLLM :=
  { testCase := tc, status := .ERROR, output := none
    expected := tc.expected_output, executionTime := none, memory := none
    error := some e, llmInterpretation := i, usedInput := tc.input_data }

/-- One iteration of `executeTestCasesWithLLM`'s loop when
`interpretedTestCases[i]` is present. -/
def processTestCaseLLM (net : Submission → Except NetError String)
    (dec : String → Option String)
    (fetchRaw : String → Nat → Except NetError RawResult)
    (code language : String) (tc : TestCase) (i : Interp) : CaseResultLLM :=
  let input := inputToUse tc i
  match casePipeline net dec fetchRaw code language input with
  | .error e => errorCaseResultLLM tc (some i) e
  | .ok r => classifyCaseLLM tc i input r

/-- One iteration when `interpretedTestCases[i]` is `undefined` (shorter
interpretation sequence): reading `interpretation.formatted_input` in the
`try` throws a `TypeError`, caught by the per-case `catch`. -/
def undefinedInterpResult (tc : TestCase) : CaseResultLLM :=
  errorCaseResultLLM tc none
    "Cannot read properties of undefined (reading 'formatted_input')"

/-- `executeTestCasesWithLLM(code, language, testCases, problemContext)`:
`interpretOutcome` is the outcome of the up-front batched
`llmService.interpretTestCases` call; an exception there propagates out of
the whole call (the outer `catch` rethrows). Then the per-case loop pairs
each test case with the interpretation at its index. -/
def executeTestCasesWithLLM (interpretOutcome : Except String (List Interp))
    (net : Submission → Except NetError String)
    (dec : String → Option String)
    (fetchRaw : String → Nat → Except NetError RawResult)
    (code language : String) (testCases : List TestCase) :
    Except String (List CaseResultLLM) :=
  match interpretOutcome with
  | .error e => .error e
  | .ok interps =>
    .ok (testCases.enum.map fun p =>
      match interps[p.fst]? with
      | some i => processTestCaseLLM net dec fetchRaw code language p.snd i
      | none => undefinedInterpResult p.snd)

/-- `getSupportedLanguages()`. -/
def getSupportedLanguages : List String :=
  ["c", "cpp", "java", "python", "javascript"]

/-! ## Helper lemmas -/

theorem toNat_ofNat_valid (n : Nat) (h : n.isValidChar) : (Char.ofNat n).toNat = n := by
  simp [Char.ofNat, h, Char.ofNatAux, Char.toNat]
  rfl

theorem charToLower_idem (c : Char) : charToLower (charToLower c) = charToLower c := by
  unfold charToLower
  by_cases h : 65 ≤ c.toNat ∧ c.toNat ≤ 90
  · rw [if_pos h]
    have hv : (Char.ofNat (c.toNat + 32)).toNat = c.toNat + 32 :=
      toNat_ofNat_valid _ (Or.inl (by omega))
    rw [if_neg (by omega)]
  · rw [if_neg h, if_neg h]

theorem strToLower_idem (s : String) : strToLower (strToLower s) = strToLower s := by
  unfold strToLower
  refine congrArg String.mk ?_
  show (s.data.map charToLower).map charToLower = s.data.map charToLower
  rw [List.map_map]
  exact List.map_congr_left fun c _ => charToLower_idem c

/-- C6: `compareOutput` returns false when either side is absent or empty, and
otherwise returns true exactly when the two sides are equal after trimming
leading/trailing whitespace and replacing every CRLF by LF; in particular the
three concrete examples of the spec hold. -/
theorem compareOutput_spec :
    (∀ a e : Option String,
      compareOutput a e =
        (strTruthy a && strTruthy e &&
          decide (normalizeOutput (a.getD "") = normalizeOutput (e.getD "")))) ∧
    compareOutput (some "Hello\r\nWorld") (some "Hello\nWorld") = true ∧
    compareOutput (some "") (some "anything") = false ∧
    compareOutput (some " x \n") (some "x") = true := by
  refine ⟨?_, by decide, by decide, by decide⟩
  intro a e
  cases a with
  | none => rfl
  | some a =>
    cases e with
    | none => simp [compareOutput, strTruthy]
    | some e =>
      by_cases ha : a = "" <;> by_cases he : e = "" <;>
        simp [compareOutput, strTruthy, ha, he]

/-- C8: `decodeBase64Response` decodes `stdout`, `stderr`, `compile_output`
independently (each output field is a function of the corresponding input
field alone), leaves every other field of the record unchanged, never drops
the record, and a decode failure on a field leaves that field exactly as
received. -/
theorem decodeBase64Response_spec (dec : String → Option String) (r : RawResult) :
    ((decodeBase64Response dec r).status = r.status ∧
      (decodeBase64Response dec r).time = r.time ∧
      (decodeBase64Response dec r).memory = r.memory) ∧
    ((decodeBase64Response dec r).stdout = decodeField dec r.stdout ∧
      (decodeBase64Response dec r).stderr = decodeField dec r.stderr ∧
      (decodeBase64Response dec r).compile_output = decodeField dec r.compile_output) ∧
    (∀ s : String, dec s = none → decodeField dec (some s) = some s) ∧
    (∀ s d : String, s ≠ "" → dec s = some d → decodeField dec (some s) = some d) := by
  refine ⟨⟨rfl, rfl, rfl⟩, ⟨rfl, rfl, rfl⟩, ?_, ?_⟩
  · intro s hs
    by_cases h : s = "" <;> simp [decodeField, h, hs]
  · intro s d hs hd
    simp [decodeField, hs, hd]

/-- A base64 decoder succeeding only on `"QQ=="`, for concrete evaluation. -/
def decW : String → Option String := fun s => if s = "QQ==" then some "A" else none

/-- A concrete raw record whose `stderr` payload fails to decode. -/
def rawW : RawResult :=
  { status := some ⟨3, some "Accepted"⟩, stdout := some "QQ==", stderr := some "bad"
    compile_output := none, time := some "0.01", memory := some 1024 }

/-- Witness for C8 at a concrete record: the corrupt `stderr` payload is left
as received, the correct `stdout` still decodes, and `status` is untouched. -/
theorem decodeBase64Response_spec_witness :
    decodeField decW (some "bad") = some "bad" ∧
    decodeField decW (some "QQ==") = some "A" ∧
    (decodeBase64Response decW rawW).status = some ⟨3, some "Accepted"⟩ := by
  have h := decodeBase64Response_spec decW rawW
  exact ⟨h.2.2.1 "bad" (by decide), h.2.2.2 "QQ==" "A" (by decide) (by decide),
    h.1.1.trans (by decide)⟩

/-- C5: an identifier missing from the language table makes `submitCode` fail
with the unsupported-language error and an empty network trace (no request is
ever sent); a supported identifier produces exactly one request carrying the
table's numeric language id; and the table contains at least C, C++, Java,
Python, JavaScript. -/
theorem submitCode_language_gate (net : Submission → Except NetError String)
    (code language input : String) :
    (getLanguageId language = none →
      submitCodeT net code language input =
        (.error ("Failed to submit code: " ++ ("Unsupported language: " ++ language)),
          [])) ∧
    (∀ id, getLanguageId language = some id →
      (submitCodeT net code language input).snd =
        [{ source_code := code, language_id := id, stdin := input, base64_encoded := true }]) ∧
    (getLanguageId "c" = some 50 ∧ getLanguageId "cpp" = some 54 ∧
      getLanguageId "java" = some 62 ∧ getLanguageId "python" = some 71 ∧
      getLanguageId "javascript" = some 63) := by
  refine ⟨?_, ?_, by decide, by decide, by decide, by decide, by decide⟩
  · intro h
    unfold getLanguageId at h
    unfold submitCodeT
    rw [h]
    rfl
  · intro id h
    unfold getLanguageId at h
    unfold submitCodeT
    rw [h]
    cases hn : net ⟨code, id, input, true⟩ <;> simp [hn]

/-- A remote engine accepting every submission, for concrete evaluation. -/
def netW : Submission → Except NetError String := fun _ => .ok "token-1"

/-- Witness for C5: `"ruby"` is rejected with no network call; `"Python"`
produces one request with language id 71. -/
theorem submitCode_language_gate_witness :
    submitCodeT netW "print(1)" "ruby" "" =
      (.error ("Failed to submit code: " ++ ("Unsupported language: " ++ "ruby")), []) ∧
    (submitCodeT netW "print(1)" "Python" "x").snd =
      [{ source_code := "print(1)", language_id := 71, stdin := "x",
         base64_encoded := true }] :=
  ⟨(submitCode_language_gate netW "print(1)" "ruby" "").1 (by decide),
   (submitCode_language_gate netW "print(1)" "Python" "x").2.1 71 (by decide)⟩

/-- C10: language lookup is case-insensitive — `getLanguageId` lowercases
before consulting the table, so `getLanguageId l = getLanguageId (strToLower l)`,
`"Python"` resolves like `"python"`, and `submitCode`'s network behaviour for
`l` is that of `strToLower l`. -/
theorem getLanguageId_case_insensitive :
    (∀ l : String, getLanguageId l = getLanguageId (strToLower l)) ∧
    getLanguageId "Python" = getLanguageId "python" ∧
    getLanguageId "Python" = some 71 ∧
    (∀ (net : Submission → Except NetError String) (code input l : String),
      (submitCodeT net code l input).snd =
        (submitCodeT net code (strToLower l) input).snd) := by
  have key : ∀ l : String, getLanguageId l = getLanguageId (strToLower l) := by
    intro l
    unfold getLanguageId
    rw [strToLower_idem]
  refine ⟨key, by decide, by decide, ?_⟩
  intro net code input l
  unfold submitCodeT
  rw [strToLower_idem]
  cases hm : languageMap (strToLower l) <;> simp [hm]

/-- C9: an exception in the up-front batched `llmService.interpretTestCases`
call propagates out of `executeTestCasesWithLLM` unchanged (no result sequence
is produced), while any successful interpretation outcome always yields a
result sequence: per-case isolation covers only the per-case pipeline. -/
theorem executeTestCasesWithLLM_interpret_error
    (net : Submission → Except NetError String) (dec : String → Option String)
    (fetchRaw : String → Nat → Except NetError RawResult)
    (code language : String) (testCases : List TestCase) :
    (∀ e : String,
      executeTestCasesWithLLM (.error e) net dec fetchRaw code language testCases =
        .error e) ∧
    (∀ interps : List Interp, ∃ rs,
      executeTestCasesWithLLM (.ok interps) net dec fetchRaw code language testCases =
        .ok rs) :=
  ⟨fun _ => rfl, fun _ => ⟨_, rfl⟩⟩

/-- A fetch sequence in which every poll succeeds (returns a status record). -/
def okFetch (fetch : Nat → RawResult) : Nat → Except String RawResult :=
  fun k => .ok (fetch k)

theorem waitLoop_error_iff (fetch : Nat → RawResult) (fuel : Nat) :
    ∀ start : Nat,
      (waitLoop (okFetch fetch) fuel start = .error "Submission timeout" ↔
        ∀ j, start ≤ j → j < start + fuel → isTerminal (fetch j) = false) := by
  induction fuel with
  | zero =>
    intro start
    constructor
    · intro _ j h1 h2
      omega
    · intro _
      rfl
  | succ n ih =>
    intro start
    show ((if isTerminal (fetch start) then (.ok (fetch start) : Except String RawResult)
        else waitLoop (okFetch fetch) n (start + 1)) = .error "Submission timeout" ↔ _)
    by_cases h : isTerminal (fetch start)
    · rw [if_pos h]
      constructor
      · intro hc
        exact absurd hc (by simp)
      · intro H
        exact absurd h (by simp [H start (Nat.le_refl _) (by omega)])
    · rw [if_neg h, ih (start + 1)]
      constructor
      · intro H j h1 h2
        rcases Nat.eq_or_lt_of_le h1 with he | hlt
        · rw [← he]
          exact Bool.eq_false_iff.mpr h
        · exact H j (by omega) (by omega)
      · intro H j h1 h2
        exact H j (by omega) (by omega)

theorem waitLoop_first_terminal (fetch : Nat → RawResult) (fuel : Nat) :
    ∀ start k : Nat, start ≤ k → k < start + fuel → isTerminal (fetch k) = true →
      (∀ j, start ≤ j → j < k → isTerminal (fetch j) = false) →
      waitLoop (okFetch fetch) fuel start = .ok (fetch k) := by
  induction fuel with
  | zero =>
    intro start k h1 h2 _ _
    omega
  | succ n ih =>
    intro start k h1 h2 hterm hmin
    show (if isTerminal (fetch start) then (.ok (fetch start) : Except String RawResult)
        else waitLoop (okFetch fetch) n (start + 1)) = .ok (fetch k)
    by_cases h : isTerminal (fetch start)
    · rw [if_pos h]
      have hk : k = start := by
        by_contra hne
        have hlt : start < k := by omega
        rw [hmin start (Nat.le_refl _) hlt] at h
        exact absurd h (by simp)
      rw [hk]
    · rw [if_neg h]
      have hne : start ≠ k := by
        intro he
        rw [he] at h
        exact h hterm
      exact ih (start + 1) k (by omega) (by omega) hterm
        (fun j hj1 hj2 => hmin j (by omega) hj2)

/-- C2: `waitForSubmission` polls at a fixed 1-second interval (so within a
budget of `maxWaitTime` ms exactly `pollBudget maxWaitTime = ⌈maxWaitTime/1000⌉`
fetches are attempted), returns the first fetched result whose status id is
terminal (`> 2`), and — when every fetch succeeds — throws the
`Submission timeout` error if and only if no terminal status is observed
within the budget. -/
theorem waitForSubmission_spec (fetch : Nat → RawResult) (maxWaitTime : Nat) :
    (∀ k, k < pollBudget maxWaitTime → isTerminal (fetch k) = true →
      (∀ j, j < k → isTerminal (fetch j) = false) →
      waitForSubmission (okFetch fetch) maxWaitTime = .ok (fetch k)) ∧
    (waitForSubmission (okFetch fetch) maxWaitTime = .error "Submission timeout" ↔
      ∀ k, k < pollBudget maxWaitTime → isTerminal (fetch k) = false) := by
  constructor
  · intro k hk hterm hmin
    exact waitLoop_first_terminal fetch (pollBudget maxWaitTime) 0 k (Nat.zero_le k)
      (by omega) hterm (fun j _ hj => hmin j hj)
  · unfold waitForSubmission
    rw [waitLoop_error_iff fetch (pollBudget maxWaitTime) 0]
    constructor
    · intro H k h1
      exact H k (Nat.zero_le k) (by omega)
    · intro H j _ hj
      exact H j (by omega)

/-- A job that is still running on the first two polls and accepted on the
third. -/
def pollW : Nat → RawResult := fun k =>
  if k < 2 then
    { status := some ⟨2, some "Running"⟩, stdout := none, stderr := none
      compile_output := none, time := none, memory := none }
  else
    { status := some ⟨3, some "Accepted"⟩, stdout := some "ok", stderr := none
      compile_output := none, time := some "0.01", memory := some 256 }

/-- A job that never leaves the running state. -/
def pollRunning : Nat → RawResult := fun _ =>
  { status := some ⟨2, some "Running"⟩, stdout := none, stderr := none
    compile_output := none, time := none, memory := none }

/-- Witness for C2: with the default 30000 ms budget the poller returns the
third (first terminal) fetch; a job stuck in `Running` times out within a
5000 ms budget. -/
theorem waitForSubmission_spec_witness :
    waitForSubmission (okFetch pollW) 30000 = .ok (pollW 2) ∧
    waitForSubmission (okFetch pollRunning) 5000 = .error "Submission timeout" :=
  ⟨(waitForSubmission_spec pollW 30000).1 2 (by decide) (by decide)
    (by decide),
   (waitForSubmission_spec pollRunning 5000).2.mpr (by decide)⟩

/-- C1: `executeTestCases` is total (no exception ever leaves the batch call:
its result type is a plain list), returns one result per test case in the same
order, each position computed independently from its own test case; and a
per-case exception with message `e` becomes an ERROR record carrying `e`. -/
theorem executeTestCases_isolation (net : Submission → Except NetError String)
    (dec : String → Option String)
    (fetchRaw : String → Nat → Except NetError RawResult)
    (code language : String) (testCases : List TestCase) :
    (executeTestCases net dec fetchRaw code language testCases).length =
      testCases.length ∧
    (∀ (i : Nat) (tc : TestCase), testCases[i]? = some tc →
      (executeTestCases net dec fetchRaw code language testCases)[i]? =
        some (processTestCase net dec fetchRaw code language tc)) ∧
    (∀ (tc : TestCase) (e : String),
      casePipeline net dec fetchRaw code language tc.input_data = .error e →
      processTestCase net dec fetchRaw code language tc = errorCaseResult tc e ∧
      (errorCaseResult tc e).status = .ERROR ∧
      (errorCaseResult tc e).error = some e) := by
  refine ⟨by simp [executeTestCases], ?_, ?_⟩
  · intro i tc h
    unfold executeTestCases
    rw [List.getElem?_map, h]
    rfl
  · intro tc e h
    refine ⟨?_, rfl, rfl⟩
    unfold processTestCase
    rw [h]

/-- The identity decoder: every payload in the concrete scenarios is already
plain text. -/
def decOk : String → Option String := fun s => some s

/-- A remote engine that rejects the submission whose stdin is `"in3"` with a
transport failure and accepts every other one. -/
def netC1 : Submission → Except NetError String := fun sub =>
  if sub.stdin = "in3" then .error ⟨none, "network down"⟩ else .ok "tok"

/-- Every fetch reports an accepted run that printed `"ok"`. -/
def fetchC1 : String → Nat → Except NetError RawResult := fun _ _ =>
  .ok { status := some ⟨3, some "Accepted"⟩, stdout := some "ok", stderr := none
        compile_output := none, time := some "0.02", memory := some 512 }

/-- Five test cases, all expecting `"ok"`. -/
def tcsC1 : List TestCase :=
  [⟨1, "in1", "ok", true⟩, ⟨2, "in2", "ok", false⟩, ⟨3, "in3", "ok", false⟩,
   ⟨4, "in4", "ok", false⟩, ⟨5, "in5", "ok", false⟩]

/-- Witness for C1: in a batch of 5 where case 3 throws during submission, the
result has length 5, case 3 is an ERROR record carrying the exception's
message, and cases 1, 2, 4, 5 independently come out PASSED. -/
theorem executeTestCases_isolation_witness :
    (executeTestCases netC1 decOk fetchC1 "print(1)" "python" tcsC1).length = 5 ∧
    (executeTestCases netC1 decOk fetchC1 "print(1)" "python" tcsC1)[2]? =
      some (errorCaseResult ⟨3, "in3", "ok", false⟩
        ("Failed to submit code: " ++ "network down")) ∧
    (errorCaseResult ⟨3, "in3", "ok", false⟩
      ("Failed to submit code: " ++ "network down")).status = .ERROR ∧
    (executeTestCases netC1 decOk fetchC1 "print(1)" "python" tcsC1)[0]? =
      some (processTestCase netC1 decOk fetchC1 "print(1)" "python"
        ⟨1, "in1", "ok", true⟩) ∧
    (processTestCase netC1 decOk fetchC1 "print(1)" "python"
      ⟨1, "in1", "ok", true⟩).status = .PASSED := by
  have h := executeTestCases_isolation netC1 decOk fetchC1 "print(1)" "python" tcsC1
  have herr :
      casePipeline netC1 decOk fetchC1 "print(1)" "python"
        (TestCase.input_data ⟨3, "in3", "ok", false⟩) =
        .error ("Failed to submit code: " ++ "network down") := rfl
  have h3 := h.2.2 ⟨3, "in3", "ok", false⟩ ("Failed to submit code: " ++ "network down") herr
  refine ⟨h.1.trans (by decide), ?_, h3.2.1, h.2.1 0 ⟨1, "in1", "ok", true⟩ (by decide), ?_⟩
  · rw [h.2.1 2 ⟨3, "in3", "ok", false⟩ (by decide), h3.1]
  · decide

/-- C4: in `executeTestCasesWithLLM`, a case whose interpretation has
`success = false` or no `formatted_input` is submitted with — and records as
`usedInput` — the original `input_data`, never the `formatted_input`; and a
per-case exception also records `usedInput` as the original `input_data`. -/
theorem executeTestCasesWithLLM_fallback (net : Submission → Except NetError String)
    (dec : String → Option String)
    (fetchRaw : String → Nat → Except NetError RawResult)
    (code language : String) (testCases : List TestCase) (interps : List Interp)
    (i : Nat) (tc : TestCase) (interp : Interp)
    (htc : testCases[i]? = some tc) (hi : interps[i]? = some interp)
    (hfb : interp.success = false ∨ interp.formatted_input = none) :
    inputToUse tc interp = tc.input_data ∧
    (∃ rs, executeTestCasesWithLLM (.ok interps) net dec fetchRaw code language
        testCases = .ok rs ∧
      rs[i]? = some (processTestCaseLLM net dec fetchRaw code language tc interp)) ∧
    (processTestCaseLLM net dec fetchRaw code language tc interp).usedInput =
      tc.input_data ∧
    (∀ e, casePipeline net dec fetchRaw code language (inputToUse tc interp) =
        .error e →
      processTestCaseLLM net dec fetchRaw code language tc interp =
        errorCaseResultLLM tc (some interp) e ∧
      (errorCaseResultLLM tc (some interp) e).status = .ERROR ∧
      (errorCaseResultLLM tc (some interp) e).usedInput = tc.input_data) := by
  have hinput : inputToUse tc interp = tc.input_data := by
    unfold inputToUse
    cases hf : interp.formatted_input with
    | none => rfl
    | some s =>
      cases hfb with
      | inl h => simp [h]
      | inr h => rw [hf] at h; exact absurd h (by simp)
  refine ⟨hinput, ⟨_, rfl, ?_⟩, ?_, ?_⟩
  · rw [List.getElem?_map, List.getElem?_enum, htc]
    simp [hi]
  · simp only [processTestCaseLLM]
    rw [hinput]
    cases hp : casePipeline net dec fetchRaw code language tc.input_data with
    | error e => rfl
    | ok r => rfl
  · intro e he
    rw [hinput] at he
    simp only [processTestCaseLLM]
    rw [hinput, he]
    exact ⟨rfl, rfl, rfl⟩

/-- An interpretation the LLM marked unsuccessful, still carrying a (possibly
malformed) formatted payload. -/
def interpFail : Interp := ⟨false, some "FORMATTED"⟩

/-- A single test case with original input `"orig"`. -/
def tcLLM : TestCase := ⟨7, "orig", "ok", true⟩

/-- Witness for C4: with a failed interpretation, the submitted and recorded
input is the original `"orig"`, not `"FORMATTED"`, both on the success path
and (with the C1 engine rejecting nothing here) in general. -/
theorem executeTestCasesWithLLM_fallback_witness :
    inputToUse tcLLM interpFail = "orig" ∧
    (processTestCaseLLM netW decOk fetchC1 "print(1)" "python" tcLLM
      interpFail).usedInput = "orig" := by
  have h := executeTestCasesWithLLM_fallback netW decOk fetchC1 "print(1)" "python"
    [tcLLM] [interpFail] 0 tcLLM interpFail (by decide) (by decide) (Or.inl (by decide))
  exact ⟨h.1, h.2.2.1⟩

theorem statusIs_false_of_ne (r : RawResult) (m n : Nat) (h : statusIs r m = true)
    (hne : m ≠ n) : statusIs r n = false := by
  unfold statusIs at *
  revert h
  cases r.status with
  | none =>
    intro h
    simp at h
  | some s =>
    intro h
    simp at h ⊢
    omega

theorem jsOrDefault_of_falsy (x : Option String) (d : String)
    (h : strTruthy x = false) : jsOrDefault x d = d := by
  cases x with
  | none => rfl
  | some s =>
    have hs : s = "" := by
      unfold strTruthy at h
      simpa using h
    simp [jsOrDefault, hs]

theorem jsOrDefault_ne_empty (x : Option String) (d : String) (hd : d ≠ "") :
    jsOrDefault x d ≠ "" := by
  cases x with
  | none => exact hd
  | some s =>
    unfold jsOrDefault
    by_cases hs : s = "" <;> simp [hs, hd]

/-- `shapeResult` never touches the status (every branch spreads `...result`). -/
theorem shapeResult_status (r : RawResult) : (shapeResult r).status = r.status := by
  unfold shapeResult
  split
  · rfl
  · split
    · rfl
    · split <;> rfl

/-- C3: the outcome classification matches the §4.4 table. On the batch path
(`classifyCase`): status 3 is PASSED/FAILED by output comparison with stdout
as received; status 4 is FAILED with stdout as received; status 5 is TLE with
output cleared and error `Time Limit Exceeded`; status 6 is CE with output
cleared and the compile diagnostic defaulting to `Compilation Error`; any
other terminal status is ERROR with the status description or
`Unknown Error`. On the single-execution path (`shapeResult`): status 5
clears stdout and compile_output and sets the TLE text, status 6 clears
stdout and stderr and keeps a non-empty compile diagnostic, and an empty or
absent stdout on status 3 becomes the literal `No output`. -/
theorem classification_matches_table (tc : TestCase) (r : RawResult) :
    (statusIs r 3 = true →
      classifyCase tc r =
        { testCase := tc
          status := if compareOutput r.stdout (some tc.expected_output) then
            .PASSED else .FAILED
          output := r.stdout, expected := tc.expected_output
          executionTime := r.time, memory := r.memory, error := none }) ∧
    (statusIs r 4 = true →
      classifyCase tc r =
        { testCase := tc, status := .FAILED, output := r.stdout
          expected := tc.expected_output, executionTime := r.time
          memory := r.memory, error := none }) ∧
    (statusIs r 5 = true →
      classifyCase tc r =
        { testCase := tc, status := .TLE, output := none
          expected := tc.expected_output, executionTime := none, memory := none
          error := some "Time Limit Exceeded" } ∧
      shapeResult r =
        { r with stdout := some "", stderr := some "Time Limit Exceeded"
                 compile_output := some "" }) ∧
    (statusIs r 6 = true →
      classifyCase tc r =
        { testCase := tc, status := .CE, output := none
          expected := tc.expected_output, executionTime := none, memory := none
          error := some (jsOrDefault r.compile_output "Compilation Error") } ∧
      shapeResult r =
        { r with stdout := some "", stderr := some ""
                 compile_output :=
                   some (jsOrDefault r.compile_output "Compilation Error") } ∧
      jsOrDefault r.compile_output "Compilation Error" ≠ "") ∧
    (isTerminal r = true → statusIs r 3 = false → statusIs r 4 = false →
      statusIs r 5 = false → statusIs r 6 = false →
      classifyCase tc r =
        { testCase := tc, status := .ERROR, output := none
          expected := tc.expected_output, executionTime := none, memory := none
          error := some (jsOrDefault (statusDescription r) "Unknown Error") }) ∧
    (statusIs r 3 = true → strTruthy r.stdout = false →
      (shapeResult r).stdout = some "No output") := by
  refine ⟨?_, ?_, ?_, ?_, ?_, ?_⟩
  · intro h3
    simp [classifyCase, h3]
  · intro h4
    simp [classifyCase, h4, statusIs_false_of_ne r 4 3 h4 (by decide)]
  · intro h5
    have e3 := statusIs_false_of_ne r 5 3 h5 (by decide)
    have e4 := statusIs_false_of_ne r 5 4 h5 (by decide)
    have e6 := statusIs_false_of_ne r 5 6 h5 (by decide)
    exact ⟨by simp [classifyCase, h5, e3, e4], by simp [shapeResult, h5, e3, e6]⟩
  · intro h6
    have e3 := statusIs_false_of_ne r 6 3 h6 (by decide)
    have e4 := statusIs_false_of_ne r 6 4 h6 (by decide)
    have e5 := statusIs_false_of_ne r 6 5 h6 (by decide)
    exact ⟨by simp [classifyCase, h6, e3, e4, e5], by simp [shapeResult, h6, e3],
      jsOrDefault_ne_empty _ _ (by decide)⟩
  · intro _ e3 e4 e5 e6
    simp [classifyCase, e3, e4, e5, e6]
  · intro h3 hempty
    simp [shapeResult, h3, jsOrDefault_of_falsy r.stdout "No output" hempty]

/-- Raw terminal records with status ids 3..6 and 13, sharing the payload
fields, for concrete evaluation of the classification table. -/
def rawAt (n : Nat) : RawResult :=
  { status := some ⟨n, some "desc"⟩, stdout := some "out", stderr := some "err"
    compile_output := some "diag", time := some "0.1", memory := some 64 }

/-- A status-3 record that produced no output. -/
def rawNoOut : RawResult :=
  { status := some ⟨3, some "Accepted"⟩, stdout := none, stderr := none
    compile_output := none, time := some "0.1", memory := some 64 }

/-- A concrete test case expecting `"out"`. -/
def tcC3 : TestCase := ⟨9, "stdin", "out", true⟩

/-- Witness for C3, applying the table theorem at concrete records with
status ids 3, 4, 5, 6 and 13. -/
theorem classification_matches_table_witness :
    (classifyCase tcC3 (rawAt 3)).status = .PASSED ∧
    (classifyCase tcC3 (rawAt 4)).status = .FAILED ∧
    classifyCase tcC3 (rawAt 5) =
      { testCase := tcC3, status := .TLE, output := none, expected := "out"
        executionTime := none, memory := none
        error := some "Time Limit Exceeded" } ∧
    (classifyCase tcC3 (rawAt 6)).error = some "diag" ∧
    (classifyCase tcC3 (rawAt 13)).status = .ERROR ∧
    (shapeResult rawNoOut).stdout = some "No output" := by
  have h3 := (classification_matches_table tcC3 (rawAt 3)).1 (by decide)
  have h4 := (classification_matches_table tcC3 (rawAt 4)).2.1 (by decide)
  have h5 := ((classification_matches_table tcC3 (rawAt 5)).2.2.1 (by decide)).1
  have h6 := ((classification_matches_table tcC3 (rawAt 6)).2.2.2.1 (by decide)).1
  have h13 := (classification_matches_table tcC3 (rawAt 13)).2.2.2.2.1 (by decide)
    (by decide) (by decide) (by decide) (by decide)
  have hno := (classification_matches_table tcC3 rawNoOut).2.2.2.2.2 (by decide)
    (by decide)
  refine ⟨?_, ?_, h5, ?_, ?_, hno⟩
  · rw [h3]; decide
  · rw [h4]
  · rw [h6]; decide
  · rw [h13]

/-- How many of the three text fields {stdout, stderr, compile_output} of a
record are populated (present and non-empty). -/
def populatedCount (r : RawResult) : Nat :=
  (if strTruthy r.stdout then 1 else 0) +
    (if strTruthy r.stderr then 1 else 0) +
    (if strTruthy r.compile_output then 1 else 0)

/-- An accepted run that wrote to stdout and stderr and also carries a
compiler diagnostic — every field populated. -/
def rawAll : RawResult :=
  { status := some ⟨3, some "Accepted"⟩, stdout := some "a", stderr := some "b"
    compile_output := some "c", time := some "0.1", memory := some 100 }

/-- Every fetch reports `rawAll`. -/
def fetchAll : String → Nat → Except NetError RawResult := fun _ _ => .ok rawAll

/-- C7 counterexample: `executeCode` can return a record in which all three of
stdout, stderr and compile_output are populated (an Accepted run that also
wrote to stderr, with a compiler warning), so "exactly one of the three is
populated — never all three" is false on the code. -/
theorem executeCode_exclusivity_counterexample :
    executeCode netW decOk fetchAll "print(1)" "python" "" =
      .ok (shapeResult rawAll) ∧
    populatedCount (shapeResult rawAll) = 3 ∧
    populatedCount (shapeResult rawAll) ≠ 1 := by
  refine ⟨rfl, by decide, by decide⟩

/-- C7 amended: the exclusivity holds exactly on the TLE and CE branches —
every record `executeCode` returns whose status id is 5 or 6 has exactly one
of {stdout, stderr, compile_output} populated; on the other branches the
fields are passed through as received (with defaults), so several may be
populated at once. -/
theorem executeCode_exclusivity_amended (net : Submission → Except NetError String)
    (dec : String → Option String)
    (fetchRaw : String → Nat → Except NetError RawResult)
    (code language input : String) (r : RawResult)
    (h : executeCode net dec fetchRaw code language input = .ok r)
    (h56 : statusIs r 5 = true ∨ statusIs r 6 = true) :
    populatedCount r = 1 := by
  obtain ⟨r', hr'⟩ : ∃ r', r = shapeResult r' := by
    unfold executeCode at h
    cases hs : submitCode net code language input with
    | error e => rw [hs] at h; exact absurd h (by simp)
    | ok tok =>
      rw [hs] at h
      simp only [] at h
      cases hw : waitForSubmission (getSubmissionResult dec fetchRaw tok) 15000 with
      | error e =>
        rw [hw] at h
        exact absurd h (by simp)
      | ok rr =>
        rw [hw] at h
        simp at h
        exact ⟨rr, h.symm⟩
  subst hr'
  have hst : ∀ n, statusIs (shapeResult r') n = statusIs r' n := by
    intro n
    unfold statusIs
    rw [shapeResult_status]
  cases h56 with
  | inl h5 =>
    rw [hst] at h5
    have e3 := statusIs_false_of_ne r' 5 3 h5 (by decide)
    have e6 := statusIs_false_of_ne r' 5 6 h5 (by decide)
    simp [shapeResult, h5, e3, e6, populatedCount, strTruthy]
  | inr h6 =>
    rw [hst] at h6
    have e3 := statusIs_false_of_ne r' 6 3 h6 (by decide)
    simp [shapeResult, h6, e3, populatedCount, strTruthy,
      jsOrDefault_ne_empty r'.compile_output "Compilation Error" (by decide)]

/-- A time-limit-exceeded raw record with stray payloads in every field. -/
def rawTLE : RawResult :=
  { status := some ⟨5, some "Time Limit Exceeded"⟩, stdout := some "partial"
    stderr := some "noise", compile_output := some "stale", time := none
    memory := none }

/-- Every fetch reports `rawTLE`. -/
def fetchTLE : String → Nat → Except NetError RawResult := fun _ _ => .ok rawTLE

/-- Witness for the amended C7 at a concrete TLE execution. -/
theorem executeCode_exclusivity_amended_witness :
    populatedCount (shapeResult rawTLE) = 1 :=
  executeCode_exclusivity_amended netW decOk fetchTLE "print(1)" "python" ""
    (shapeResult rawTLE) rfl (Or.inl (by decide))

end Judge0
